import Mathlib

/-!
Shallow embedding of the document-validation, account-number-generation,
quote-cache, account-creation and storage logic of the bank-manager CRUD
application (`src/app/services/validation.ts`, `account.service.ts`,
`finance.ts`, `storage.ts` and `src/app/utils/formatters.ts`), together
with theorems settling the specification claims about that logic.

Strings are modelled through their character lists; JavaScript numbers
appearing as monetary amounts or prices are modelled as rationals;
timestamps (millisecond epoch values) as naturals.
-/

/-- Numeric value of a decimal digit character, as produced by
JavaScript parseInt on a one-character digit string. -/
def digitVal (c : Char) : Nat := c.toNat - 48

/-- Character list of a string with every non-digit removed: the model of
the pervasive idiom value.replace of all non-digits by nothing, also used
as utils.cleanCPF / cleanCNPJ / cleanPhone (formatters.ts) and
AccountService.sanitizeDocument. -/
def cleanDoc (s : String) : List Char := s.data.filter Char.isDigit

/-- String form of cleanDoc. -/
def onlyDigits (s : String) : String := ⟨cleanDoc s⟩

/-- Model of the regex test for a repeated digit: a single digit followed by
n identical copies of it, anchored on both sides; used with n = 10 for CPF
and n = 13 for CNPJ. -/
def repeatedDigit (n : Nat) (l : List Char) : Bool :=
  match l with
  | [] => false
  | c :: rest => c.isDigit && rest.length == n && rest.all (· == c)

/-- First CPF check digit, from ValidationService.validateCPF
(validation.ts lines 78-84): sum of digits 0..8 weighted 10..2,
remainder = (sum * 10) mod 11, remainders 10 and 11 treated as 0. -/
def cpfCheckDigit1 (cleanCpf : List Char) : Nat :=
  let sum := ((List.range 9).map (fun i => digitVal (cleanCpf.getD i '0') * (10 - i))).sum
  let remainder := (sum * 10) % 11
  if remainder = 10 ∨ remainder = 11 then 0 else remainder

/-- Second CPF check digit, from ValidationService.validateCPF
(validation.ts lines 87-94): sum of digits 0..9 weighted 11..2, same
remainder rule. -/
def cpfCheckDigit2 (cleanCpf : List Char) : Nat :=
  let sum := ((List.range 10).map (fun i => digitVal (cleanCpf.getD i '0') * (11 - i))).sum
  let remainder := (sum * 10) % 11
  if remainder = 10 ∨ remainder = 11 then 0 else remainder

/-- ValidationService.validateCPF (validation.ts lines 62-98). -/
def validateCPF (cpf : String) : Bool :=
  if cpf = "" then false
  else
    let cleanCpf := cleanDoc cpf
    if cleanCpf.length ≠ 11 then false
    else if repeatedDigit 10 cleanCpf then false
    else if cpfCheckDigit1 cleanCpf ≠ digitVal (cleanCpf.getD 9 '0') then false
    else if cpfCheckDigit2 cleanCpf ≠ digitVal (cleanCpf.getD 10 '0') then false
    else true

/-- validators.cpf (formatters.ts lines 338-362): the second CPF validator
module; it computes both remainders with the same (sum * 10) mod 11
formula and returns the second comparison directly. -/
def validators_cpf (value : String) : Bool :=
  let clean := cleanDoc value
  if clean.length ≠ 11 then false
  else if repeatedDigit 10 clean then false
  else if cpfCheckDigit1 clean ≠ digitVal (clean.getD 9 '0') then false
  else cpfCheckDigit2 clean == digitVal (clean.getD 10 '0')

/-- First CNPJ check digit, from ValidationService.validateCNPJ
(validation.ts lines 259-264): digits 0..11 weighted by the cycle
[5,4,3,2,9,8,7,6,5,4,3,2], remainder = sum mod 11, digit = 0 when
remainder < 2 and 11 - remainder otherwise. -/
def cnpjCheckDigit1 (cleanCnpj : List Char) : Nat :=
  let weights1 : List Nat := [5, 4, 3, 2, 9, 8, 7, 6, 5, 4, 3, 2]
  let sum := ((List.range 12).map (fun i => digitVal (cleanCnpj.getD i '0') * weights1.getD i 0)).sum
  let remainder := sum % 11
  if remainder < 2 then 0 else 11 - remainder

/-- Second CNPJ check digit, from ValidationService.validateCNPJ
(validation.ts lines 268-274): digits 0..12 weighted by the cycle
[6,5,4,3,2,9,8,7,6,5,4,3,2], same derivation. -/
def cnpjCheckDigit2 (cleanCnpj : List Char) : Nat :=
  let weights2 : List Nat := [6, 5, 4, 3, 2, 9, 8, 7, 6, 5, 4, 3, 2]
  let sum := ((List.range 13).map (fun i => digitVal (cleanCnpj.getD i '0') * weights2.getD i 0)).sum
  let remainder := sum % 11
  if remainder < 2 then 0 else 11 - remainder

/-- ValidationService.validateCNPJ (validation.ts lines 245-277). -/
def validateCNPJ (cnpj : String) : Bool :=
  if cnpj = "" then false
  else
    let cleanCnpj := cleanDoc cnpj
    if cleanCnpj.length ≠ 14 then false
    else if repeatedDigit 13 cleanCnpj then false
    else if cnpjCheckDigit1 cleanCnpj ≠ digitVal (cleanCnpj.getD 12 '0') then false
    else cnpjCheckDigit2 cleanCnpj == digitVal (cleanCnpj.getD 13 '0')

example : validateCPF "11144477735" = true := by decide
example : validateCPF "111.444.777-35" = true := by decide
example : validateCPF "11111111111" = false := by decide
example : validateCNPJ "11222333000181" = true := by decide
example : validateCNPJ "11222333000182" = false := by decide
example : validators_cpf "11144477735" = true := by decide

/-- Model of the anchored CPF mask replacement (formatters.ts line 54): the
regex of three groups of 3, 3, 3, 2 digits followed by anything matches
exactly when the list starts with 11 digit characters, and the whole match
is replaced by the groups joined as DDD.DDD.DDD-DD; on no match the list is
returned unchanged. -/
def cpfMaskReplace (s : List Char) : List Char :=
  if 11 ≤ s.length ∧ (s.take 11).all Char.isDigit then
    s.take 3 ++ '.' :: ((s.drop 3).take 3) ++ '.' :: ((s.drop 6).take 3)
      ++ '-' :: ((s.drop 9).take 2)
  else s

/-- Model of the anchored CNPJ mask replacement (formatters.ts line 68):
groups of 2, 3, 3, 4, 2 digits, replaced by DD.DDD.DDD/DDDD-DD. -/
def cnpjMaskReplace (s : List Char) : List Char :=
  if 14 ≤ s.length ∧ (s.take 14).all Char.isDigit then
    s.take 2 ++ '.' :: ((s.drop 2).take 3) ++ '.' :: ((s.drop 5).take 3)
      ++ '/' :: ((s.drop 8).take 4) ++ '-' :: ((s.drop 12).take 2)
  else s

/-- formatters.cpf (formatters.ts lines 49-58). -/
def formatters_cpf (value : String) : String :=
  if value = "" then ""
  else
    let digits := cleanDoc value
    if digits.length ≤ 11 then ⟨cpfMaskReplace digits⟩
    else value

/-- formatters.cnpj (formatters.ts lines 63-72). -/
def formatters_cnpj (value : String) : String :=
  if value = "" then ""
  else
    let digits := cleanDoc value
    if digits.length ≤ 14 then ⟨cnpjMaskReplace digits⟩
    else value

example : formatters_cpf "11144477735" = "111.444.777-35" := by decide
example : formatters_cpf "123-45" = "12345" := by decide
example : formatters_cnpj "11222333000181" = "11.222.333/0001-81" := by decide

/-- Decimal digit list of a natural number, most significant first: the
model of JavaScript Number.toString on non-negative integers. Structural
fuel of 17 covers every value below 10 to the 17th, in particular every
millisecond epoch (below 2 to the 53rd) and every value below 1000; past
the fuel only the most significant digits are dropped. -/
def decDigitsAux : Nat → Nat → List Char
  | 0, _ => []
  | fuel + 1, n =>
    if n < 10 then [Nat.digitChar n]
    else decDigitsAux fuel (n / 10) ++ [Nat.digitChar (n % 10)]

/-- Decimal representation used by the account-number generator. -/
def decRepr (n : Nat) : List Char := decDigitsAux 17 n

/-- Model of the JavaScript slice of the last six characters
(account.service.ts line 146): for a shorter list the whole list. -/
def sliceLast6 (l : List Char) : List Char := l.drop (l.length - 6)

/-- Model of padStart of width 3 with the zero character
(account.service.ts line 147). -/
def padStart3 (l : List Char) : List Char := List.replicate (3 - l.length) '0' ++ l

/-- Account type union from types (part of the domain model). -/
inductive AccountType where
  | SAVINGS
  | CHECKING
  | BUSINESS
deriving DecidableEq

/-- ACCOUNT_NUMBER_PREFIX table (account.service.ts lines 10-14). -/
def accountCode : AccountType → List Char
  | .SAVINGS => ['1', '0']
  | .CHECKING => ['2', '0']
  | .BUSINESS => ['3', '0']

/-- AccountService.calculateCheckDigit (account.service.ts lines 156-166):
weighted sum with the cycle [2,3,4,5,6,7,8,9] applied cyclically over the
characters, remainder = sum mod 11, digit 0 when remainder < 2 and
11 - remainder rendered in decimal otherwise. -/
def calculateCheckDigit (baseNumber : List Char) : List Char :=
  let weights : List Nat := [2, 3, 4, 5, 6, 7, 8, 9]
  let sum := ((List.range baseNumber.length).map
    (fun i => digitVal (baseNumber.getD i '0') * weights.getD (i % weights.length) 0)).sum
  let remainder := sum % 11
  if remainder < 2 then ['0'] else decRepr (11 - remainder)

/-- AccountService.generateAccountNumber (account.service.ts lines
144-151), with the two impure sources made explicit: now is the Date.now
millisecond value and rnd the drawn floor of Math.random times 1000. -/
def generateAccountNumber (now rnd : Nat) (accountType : AccountType) : String :=
  let code := accountCode accountType
  let timestamp := sliceLast6 (decRepr now)
  let random := padStart3 (decRepr rnd)
  let base := code ++ timestamp ++ random
  ⟨base ++ '-' :: calculateCheckDigit base⟩

example : generateAccountNumber 1700000123456 7 .SAVINGS = "10123456007-3" := by decide
example : generateAccountNumber 1700000123456 987 .BUSINESS = "30123456987-1" := by decide

/-- The FinanceService CACHE object (finance.ts line 12), modelled as an
association list from cache key to stored payload and timestamp; the
JavaScript object holds at most one entry per key and preserves insertion
order. -/
abbrev Cache (α : Type) := List (String × α × Nat)

/-- CACHE_DURATION (finance.ts line 13): thirty seconds in milliseconds. -/
def CACHE_DURATION : Nat := 30000

/-- Entry stored under a key, when present. -/
def getCacheEntry (cache : Cache α) (key : String) : Option (α × Nat) :=
  (cache.find? (fun e => e.1 == key)).map (·.2)

/-- FinanceService.isCacheValid (finance.ts lines 18-24): a missing entry
is invalid; a present entry is valid while now minus its timestamp stays
under CACHE_DURATION. The JavaScript subtraction of a later timestamp
yields a negative number, which is under the duration just as the
truncated natural subtraction is. -/
def isCacheValid (cache : Cache α) (key : String) (now : Nat) : Bool :=
  match getCacheEntry cache key with
  | none => false
  | some e => now - e.2 < CACHE_DURATION

/-- FinanceService.setCache (finance.ts lines 29-34): stores the payload
under the key with the current timestamp, overwriting any prior entry. -/
def setCache (cache : Cache α) (key : String) (data : α) (now : Nat) : Cache α :=
  if cache.any (fun e => e.1 == key) then
    cache.map (fun e => if e.1 == key then (key, data, now) else e)
  else cache ++ [(key, data, now)]

/-- FinanceService.getCache (finance.ts lines 39-42): the stored payload,
or nothing (null) when the key is absent. -/
def getCache (cache : Cache α) (key : String) : Option α :=
  (getCacheEntry cache key).map (·.1)

/-- The guarded read performed at the top of getStockQuote and
getDollarQuote (finance.ts lines 55-62): the cached payload is served only
while the entry is valid, an expired or missing entry reads as absent. -/
def cacheRead (cache : Cache α) (key : String) (now : Nat) : Option α :=
  if isCacheValid cache key now then getCache cache key else none

/-- ApiResponse record from types. -/
structure ApiResponse (α : Type) where
  success : Bool
  data : Option α
  error : Option String
deriving DecidableEq

/-- StockQuote record from types, with the market time as a millisecond
epoch value. -/
structure StockQuote where
  symbol : String
  name : String
  price : Rat
  change : Rat
  changePercent : Rat
  currency : String
  marketTime : Nat
deriving DecidableEq

/-- One element of the provider response array consumed by getStockQuote:
optional fields model missing object properties, and a price that is not
a number reads as none. -/
structure RawQuote where
  symbol : Option String
  name : Option String
  price : Option Rat
  change : Option Rat
  changesPercentage : Option Rat
deriving DecidableEq

/-- The ways the axios call can fail (finance.ts lines 113-146): an HTTP
error response carrying a status and an optional message field, a network
error with no response, or a configuration error. -/
inductive FetchFailure where
  | httpStatus (status : Nat) (dataMessage : Option String)
  | network
  | config (msg : String)
deriving DecidableEq

/-- Outcome of the awaited provider call inside getStockQuote: either the
response array, or a thrown failure. -/
inductive FetchResult where
  | ok (data : List RawQuote)
  | err (failure : FetchFailure)
deriving DecidableEq

/-- Error-message mapping of the getStockQuote catch block (finance.ts
lines 113-146). -/
def stockErrorMessage (upperSymbol : String) : FetchFailure → String
  | .httpStatus 401 _ => "API Key inválida ou expirada"
  | .httpStatus 403 _ => "Acesso negado à API"
  | .httpStatus 404 _ => "Símbolo " ++ upperSymbol ++ " não encontrado"
  | .httpStatus 429 _ => "Limite de requisições da API excedido"
  | .httpStatus 500 _ => "Erro interno da API"
  | .httpStatus status dataMessage =>
      "Erro da API: " ++ toString status ++ " - " ++
        (match dataMessage with
         | some m => if m = "" then "Erro desconhecido" else m
         | none => "Erro desconhecido")
  | .network => "Erro de conexão com a API. Verifique sua internet."
  | .config m => "Erro de configuração: " ++ m

/-- Model of String.toUpperCase. -/
def jsToUpper (s : String) : String := ⟨s.data.map Char.toUpper⟩

/-- Model of Number.toFixed(2) followed by Number(): rounding to two
decimal places (the double-precision rounding of the source is
approximated exactly on the rationals). -/
def toFixed2 (x : Rat) : Rat := (Rat.ofInt (round (x * 100))) / 100

/-- FinanceService.getStockQuote (finance.ts lines 47-156), with the cache
state, the current time and the provider outcome made explicit; returns
the response together with the cache state after the call. An empty
response array or a first element without a numeric price is thrown and
caught in the same function (the JSON payload appended to the latter
message is omitted from the model). -/
def getStockQuote (cache : Cache StockQuote) (now : Nat) (symbol : String)
    (fetch : FetchResult) : ApiResponse StockQuote × Cache StockQuote :=
  let upperSymbol := jsToUpper symbol
  let cacheKey := "quote_" ++ upperSymbol
  if isCacheValid cache cacheKey now then
    ({ success := true, data := getCache cache cacheKey, error := none }, cache)
  else
    match fetch with
    | .err failure =>
        ({ success := false, data := none,
           error := some (stockErrorMessage upperSymbol failure) }, cache)
    | .ok [] =>
        ({ success := false, data := none,
           error := some ("Nenhum dado encontrado para o símbolo " ++ upperSymbol) }, cache)
    | .ok (quote :: _) =>
        match quote.price with
        | none =>
            ({ success := false, data := none,
               error := some ("Dados inválidos recebidos para " ++ upperSymbol) }, cache)
        | some p =>
            let stockQuote : StockQuote :=
              { symbol := quote.symbol.getD upperSymbol
                name := quote.name.getD upperSymbol
                price := toFixed2 p
                change := toFixed2 (quote.change.getD 0)
                changePercent := toFixed2 (quote.changesPercentage.getD 0)
                currency := if (".SA".data) <:+: upperSymbol.data then "BRL" else "USD"
                marketTime := now }
            ({ success := true, data := some stockQuote, error := none },
             setCache cache cacheKey stockQuote now)

example : cacheRead (setCache ([] : Cache Nat) "AAPL" 150 0) "AAPL" 29999 = some 150 := by decide
example : cacheRead (setCache ([] : Cache Nat) "AAPL" 150 0) "AAPL" 30001 = none := by decide

/-- Model of String.trim: whitespace stripped from both ends. -/
def jsTrim (s : String) : String :=
  ⟨((s.data.dropWhile Char.isWhitespace).reverse.dropWhile Char.isWhitespace).reverse⟩

/-- Model of String.toLowerCase. -/
def jsToLower (s : String) : String := ⟨s.data.map Char.toLower⟩

/-- Model of the anchored e-mail regex of validation.ts line 160: one or
more characters that are neither whitespace nor an at sign, an at sign,
again such characters, a dot, and again such characters to the end.
Equivalently: no whitespace anywhere, exactly one at sign, preceded by at
least one character, and some dot strictly between the at sign and the
last character. -/
def emailPatternTest (s : String) : Bool :=
  let cs := s.data
  cs.all (fun c => !c.isWhitespace) && (cs.count '@' == 1) &&
    ((List.range cs.length).any (fun i =>
      decide (1 ≤ i) && (cs.getD i ' ' == '@') &&
        ((List.range cs.length).any (fun j =>
          decide (i + 2 ≤ j) && decide (j + 2 ≤ cs.length) && (cs.getD j ' ' == '.')))))

example : emailPatternTest "joao@email.com" = true := by decide
example : emailPatternTest "joao@email" = false := by decide
example : emailPatternTest "a b@c.de" = false := by decide

/-- ValidationRule restricted to string-typed fields, as the accountSchema
uses it: a required flag, an optional regex (modelled as a test function)
and an optional custom validator. -/
structure StrFieldRule where
  required : Bool
  pattern : Option (String → Bool)
  custom : Option (String → Option String)

/-- ValidationRule restricted to number-typed fields: a required flag,
optional min and max bounds and an optional custom validator. -/
structure NumFieldRule where
  required : Bool
  min : Option Rat
  max : Option Rat
  custom : Option (Rat → Option String)

/-- ValidationService.validateField (validation.ts lines 14-40) on a
string value: the falsy-value test of the required branch is emptiness,
and the trim test is emptiness after trimming. -/
def validateFieldStr (value fieldName : String) (rules : StrFieldRule) : Option String :=
  if rules.required && (value == "" || jsTrim value == "") then
    some (fieldName ++ " é obrigatório")
  else if value != "" &&
      (match rules.pattern with
       | some test => !test value
       | none => false) then
    some (fieldName ++ " possui formato inválido")
  else
    match rules.custom with
    | some f => f value
    | none => none

/-- Truthiness-guarded bound check of validateField (validation.ts lines
27-33): the JavaScript conjunction rules.min && value < rules.min skips
the check when the bound is absent or zero (zero being falsy). -/
def numBoundTriggers (bound : Option Rat) (violates : Rat → Bool) : Bool :=
  match bound with
  | some m => decide (m ≠ 0) && violates m
  | none => false

/-- Rendering of an optional numeric bound inside an error message. -/
def numBoundStr (bound : Option Rat) : String :=
  match bound with
  | some m => toString m
  | none => "undefined"

/-- ValidationService.validateField (validation.ts lines 14-40) on a
number value: the falsy-value test of the required branch is equality
with zero (NaN is not modelled). -/
def validateFieldNum (value : Rat) (fieldName : String) (rules : NumFieldRule) : Option String :=
  if rules.required && value == 0 then
    some (fieldName ++ " é obrigatório")
  else if numBoundTriggers rules.min (fun m => decide (value < m)) then
    some (fieldName ++ " deve ser maior que " ++ numBoundStr rules.min)
  else if numBoundTriggers rules.max (fun m => decide (m < value)) then
    some (fieldName ++ " deve ser menor que " ++ numBoundStr rules.max)
  else
    match rules.custom with
    | some f => f value
    | none => none

/-- CreateAccountCommand record from types. -/
structure CreateAccountCommand where
  customerName : String
  customerCpf : String
  customerEmail : String
  customerPhone : String
  accountType : AccountType
  balance : Rat
  businessName : String
  businessCnpj : String
  isBusinessAccount : Bool
deriving DecidableEq

/-- String carried by the accountType member of the command. -/
def accountTypeStr : AccountType → String
  | .SAVINGS => "SAVINGS"
  | .CHECKING => "CHECKING"
  | .BUSINESS => "BUSINESS"

/-- accountSchema.customerName (validation.ts lines 138-146). -/
def customerNameRule : StrFieldRule where
  required := true
  pattern := none
  custom := some (fun v =>
    if v ≠ "" ∧ (jsTrim v).length < 2 then some "Nome deve ter pelo menos 2 caracteres" else none)

/-- accountSchema.customerCpf (validation.ts lines 147-157). -/
def customerCpfRule : StrFieldRule where
  required := true
  pattern := none
  custom := some (fun v =>
    if v = "" then none
    else if !validateCPF v then some "CPF inválido. Verifique os números digitados."
    else none)

/-- accountSchema.customerEmail (validation.ts lines 158-167): the regex
appears both as the pattern and inside the custom validator. -/
def customerEmailRule : StrFieldRule where
  required := true
  pattern := some emailPatternTest
  custom := some (fun v =>
    if v ≠ "" ∧ !emailPatternTest v then
      some "E-mail deve ter um formato válido (exemplo@dominio.com)"
    else none)

/-- accountSchema.customerPhone (validation.ts lines 168-178). -/
def customerPhoneRule : StrFieldRule where
  required := true
  pattern := none
  custom := some (fun v =>
    if v = "" then none
    else if (cleanDoc v).length < 10 ∨ 11 < (cleanDoc v).length then
      some "Telefone deve ter 10 ou 11 dígitos"
    else none)

/-- accountSchema.accountType (validation.ts line 179). -/
def accountTypeRule : StrFieldRule where
  required := true
  pattern := none
  custom := none

/-- accountSchema.balance (validation.ts lines 180-189): the min bound of
zero is skipped by the truthiness guard of validateField. -/
def balanceRule : NumFieldRule where
  required := true
  min := some 0
  max := none
  custom := some (fun v =>
    if v < 0 then some "Saldo não pode ser negativo" else none)

/-- businessAccountSchema.businessName: of the two definitions of the
static member in the source class, the later one (validation.ts lines
219-230) is the effective one under JavaScript semantics. -/
def businessNameRule : StrFieldRule where
  required := true
  pattern := none
  custom := some (fun v =>
    if v = "" ∨ (jsTrim v).length < 3 then some "Razão social deve ter pelo menos 3 caracteres"
    else if 100 < (jsTrim v).length then some "Razão social deve ter no máximo 100 caracteres"
    else none)

/-- businessAccountSchema.businessCnpj (validation.ts lines 231-241,
the effective later definition). -/
def businessCnpjRule : StrFieldRule where
  required := true
  pattern := none
  custom := some (fun v =>
    if v = "" then some "CNPJ é obrigatório"
    else if !validateCNPJ v then some "CNPJ inválido. Verifique os números digitados."
    else none)

/-- The per-field results of validateSchema over accountSchema
(validation.ts lines 42-59 and 137-190), in schema key order. -/
def accountSchemaChecks (command : CreateAccountCommand) : List (String × Option String) :=
  [("customerName", validateFieldStr command.customerName "customerName" customerNameRule),
   ("customerCpf", validateFieldStr command.customerCpf "customerCpf" customerCpfRule),
   ("customerEmail", validateFieldStr command.customerEmail "customerEmail" customerEmailRule),
   ("customerPhone", validateFieldStr command.customerPhone "customerPhone" customerPhoneRule),
   ("accountType", validateFieldStr (accountTypeStr command.accountType) "accountType" accountTypeRule),
   ("balance", validateFieldNum command.balance "balance" balanceRule)]

/-- The per-field results over businessAccountSchema: the spread keeps the
base keys first and appends the two business fields. -/
def businessAccountSchemaChecks (command : CreateAccountCommand) : List (String × Option String) :=
  accountSchemaChecks command ++
    [("businessName", validateFieldStr command.businessName "businessName" businessNameRule),
     ("businessCnpj", validateFieldStr command.businessCnpj "businessCnpj" businessCnpjRule)]

/-- The errors object built by validateSchema: only the failing fields. -/
def collectErrors (checks : List (String × Option String)) : List (String × String) :=
  checks.filterMap (fun e => e.2.map (fun msg => (e.1, msg)))

/-- AccountService.validateAccountCreation (account.service.ts lines
76-93): picks the schema by isBusinessAccount and fails exactly when some
field has an error; none means the command passed field validation. -/
def validateAccountCreation (command : CreateAccountCommand) : Option (List (String × String)) :=
  let errors := collectErrors
    (if command.isBusinessAccount then businessAccountSchemaChecks command
     else accountSchemaChecks command)
  if errors.isEmpty then none else some errors

/-- BankAccount record from types; the optional business fields are
present only for business accounts, and dates are millisecond epochs. -/
structure BankAccount where
  id : String
  customerName : String
  customerCpf : String
  customerEmail : String
  customerPhone : String
  accountNumber : String
  accountType : AccountType
  balance : Rat
  status : String
  createdAt : Nat
  businessName : Option String
  businessCnpj : Option String
deriving DecidableEq

/-- OperationResult record from types, specialised to accounts: the
validation errors object is the list of failing fields in schema order. -/
structure OperationResult where
  success : Bool
  data : Option BankAccount
  error : Option String
  validationErrors : List (String × String)
deriving DecidableEq

/-- AccountService.sanitizeDocument (account.service.ts lines 187-189). -/
def sanitizeDocument (value : String) : String := ⟨value.data.filter Char.isDigit⟩

/-- AccountService.sanitizeString (account.service.ts lines 183-185):
trim, then drop angle brackets and both quote characters (character codes
60, 62, 34 and 39). -/
def sanitizeString (value : String) : String :=
  ⟨(jsTrim value).data.filter
    (fun c => !(c.toNat == 60 || c.toNat == 62 || c.toNat == 34 || c.toNat == 39))⟩

/-- AccountService.sanitizeEmail (account.service.ts lines 191-193). -/
def sanitizeEmail (value : String) : String := jsToLower (jsTrim value)

/-- AccountService.getMinimumBalance (account.service.ts lines 171-178). -/
def getMinimumBalance : AccountType → Rat
  | .SAVINGS => 0
  | .CHECKING => 0
  | .BUSINESS => 100

/-- The interpolated minimum-balance message of validateBusinessRules
(account.service.ts line 134), with toFixed(2) of the two possible bounds
rendered directly. -/
def minimumBalanceMessage : AccountType → String
  | .BUSINESS => "Saldo mínimo para conta empresarial é R$ 100.00"
  | _ => "Saldo mínimo para esta conta é R$ 0.00"

/-- AccountService.validateBusinessRules (account.service.ts lines
98-139): duplicate CPF, then duplicate CNPJ for business accounts with a
nonempty CNPJ, then the minimum opening balance. -/
def validateBusinessRules (stored : List BankAccount) (command : CreateAccountCommand) :
    Option String :=
  if stored.any (fun acc => acc.customerCpf == sanitizeDocument command.customerCpf) then
    some "CPF já cadastrado no sistema. Cada CPF pode ter apenas uma conta."
  else if command.isBusinessAccount && command.businessCnpj != "" &&
      stored.any (fun acc => acc.businessCnpj == some (sanitizeDocument command.businessCnpj)) then
    some "CNPJ já cadastrado no sistema. Cada CNPJ pode ter apenas uma conta."
  else if command.balance < getMinimumBalance command.accountType then
    some (minimumBalanceMessage command.accountType)
  else none

/-- The impure sources consumed by one createAccount call: the Date.now
value, the drawn random component and the generated UUID. -/
structure Env where
  now : Nat
  rnd : Nat
  uuid : String

/-- AccountService.createAccount (account.service.ts lines 21-71), with
the persisted collection passed in and returned: field validation, then
business rules, then construction and persistence of the new account.
The returned pair is the operation result and the collection afterwards. -/
def createAccount (env : Env) (stored : List BankAccount) (command : CreateAccountCommand) :
    OperationResult × List BankAccount :=
  match validateAccountCreation command with
  | some errors =>
    ({ success := false, data := none, error := none, validationErrors := errors }, stored)
  | none =>
    match validateBusinessRules stored command with
    | some msg =>
      ({ success := false, data := none, error := some msg, validationErrors := [] }, stored)
    | none =>
      let accountNumber := generateAccountNumber env.now env.rnd command.accountType
      let newAccount : BankAccount :=
        { id := env.uuid
          customerName := sanitizeString command.customerName
          customerCpf := sanitizeDocument command.customerCpf
          customerEmail := sanitizeEmail command.customerEmail
          customerPhone := sanitizeDocument command.customerPhone
          accountNumber := accountNumber
          accountType := command.accountType
          balance := max 0 command.balance
          status := "ACTIVE"
          createdAt := env.now
          businessName := if command.isBusinessAccount then some (sanitizeString command.businessName) else none
          businessCnpj := if command.isBusinessAccount then some (sanitizeDocument command.businessCnpj) else none }
      ({ success := true, data := some newAccount, error := none, validationErrors := [] },
       stored ++ [newAccount])

/-- Investment record from types, with dates as millisecond epochs. -/
structure Investment where
  id : String
  accountId : String
  symbol : String
  name : String
  type : String
  quantity : Rat
  purchasePrice : Rat
  currentPrice : Rat
  purchaseDate : Nat
  lastUpdate : Nat
deriving DecidableEq

/-- StorageService.getAccounts (storage.ts lines 26-42): the stored
argument is the localStorage.getItem result for the accounts key (null
reads as none) and parse models JSON.parse plus the record mapping, with
none standing for a thrown deserialization error; an absent or corrupt
value degrades to the empty collection instead of raising. -/
def getAccountsFromStorage (stored : Option String)
    (parse : String → Option (List BankAccount)) : List BankAccount :=
  match stored with
  | none => []
  | some data =>
    match parse data with
    | none => []
    | some accounts => accounts

/-- StorageService.saveAccounts (storage.ts lines 13-21): stringify
models JSON.stringify and setItem the localStorage write, each either
yielding a value or throwing; any failure is rethrown as the fixed
accounts write error. -/
def saveAccountsToStorage (stringify : List BankAccount → Except String String)
    (setItem : String → Except String Unit) (accounts : List BankAccount) :
    Except String Unit :=
  match stringify accounts with
  | .error _ => .error "Falha ao salvar dados das contas"
  | .ok data =>
    match setItem data with
    | .error _ => .error "Falha ao salvar dados das contas"
    | .ok _ => .ok ()

/-- StorageService.getInvestments (storage.ts lines 60-76), modelled like
getAccountsFromStorage. -/
def getInvestmentsFromStorage (stored : Option String)
    (parse : String → Option (List Investment)) : List Investment :=
  match stored with
  | none => []
  | some data =>
    match parse data with
    | none => []
    | some investments => investments

/-- StorageService.saveInvestments (storage.ts lines 47-55), modelled
like saveAccountsToStorage. -/
def saveInvestmentsToStorage (stringify : List Investment → Except String String)
    (setItem : String → Except String Unit) (investments : List Investment) :
    Except String Unit :=
  match stringify investments with
  | .error _ => .error "Falha ao salvar dados dos investimentos"
  | .ok data =>
    match setItem data with
    | .error _ => .error "Falha ao salvar dados dos investimentos"
    | .ok _ => .ok ()

/-- A personal account-creation command filled with field-valid data. -/
def sampleCommand : CreateAccountCommand where
  customerName := "Joao Silva"
  customerCpf := "111.444.777-35"
  customerEmail := "joao@email.com"
  customerPhone := "(11) 99999-9999"
  accountType := .SAVINGS
  balance := 500
  businessName := ""
  businessCnpj := ""
  isBusinessAccount := false

/-- The same customer document in bare-digit formatting. -/
def sampleCommandUnformatted : CreateAccountCommand :=
  { sampleCommand with customerCpf := "11144477735" }

/-- The same cleaned document but an empty customer name, which fails
field validation before the duplicate check is reached. -/
def sampleCommandNoName : CreateAccountCommand :=
  { sampleCommandUnformatted with customerName := "" }

/-- A business account-creation command with field-valid data and an
opening balance below the business minimum of 100. -/
def sampleBusinessCommand : CreateAccountCommand where
  customerName := "Joao Silva"
  customerCpf := "111.444.777-35"
  customerEmail := "joao@email.com"
  customerPhone := "(11) 99999-9999"
  accountType := .BUSINESS
  balance := 50
  businessName := "Empresa Teste"
  businessCnpj := "11.222.333/0001-81"
  isBusinessAccount := true

/-- Concrete impure sources for a first call. -/
def sampleEnv1 : Env := { now := 1700000123456, rnd := 42, uuid := "uuid-1" }

/-- Concrete impure sources for a second call. -/
def sampleEnv2 : Env := { now := 1700000999999, rnd := 7, uuid := "uuid-2" }

example : validateAccountCreation sampleCommand = none := by decide
example : validateAccountCreation sampleBusinessCommand = none := by decide
example : (createAccount sampleEnv1 [] sampleCommand).1.success = true := by decide
example :
    (createAccount sampleEnv2 (createAccount sampleEnv1 [] sampleCommand).2
      sampleCommandUnformatted).1.error =
    some "CPF já cadastrado no sistema. Cada CPF pode ter apenas uma conta." := by decide

/-! Supporting lemmas. -/

theorem cleanDoc_of_all_digit (s : String) (h : ∀ c ∈ s.data, c.isDigit = true) :
    cleanDoc s = s.data :=
  List.filter_eq_self.mpr h

theorem data_ne_nil_of_length (s : String) (n : Nat) (hn : 0 < n)
    (h : s.data.length = n) : ¬ s = "" := by
  intro hs
  subst hs
  simp at h
  omega

/-- C1: for every 11-digit input whose digits are not all identical,
ValidationService.validateCPF accepts exactly when digit 9 equals the
first check digit (weights 10..2 over digits 0..8, remainder
(sum * 10) mod 11 with 10 and 11 treated as 0) and digit 10 equals the
second check digit (weights 11..2 over digits 0..9); moreover the two
concrete scenarios hold and any input whose cleaned form is not 11 digits
long is rejected. -/
theorem validateCPF_check_digit_spec :
    (∀ s : String, s.data.length = 11 → (∀ c ∈ s.data, c.isDigit = true) →
      repeatedDigit 10 s.data = false →
      (validateCPF s = true ↔
        digitVal (s.data.getD 9 '0') = cpfCheckDigit1 s.data ∧
        digitVal (s.data.getD 10 '0') = cpfCheckDigit2 s.data)) ∧
    validateCPF "11144477735" = true ∧
    validateCPF "11111111111" = false ∧
    (∀ s : String, (cleanDoc s).length ≠ 11 → validateCPF s = false) := by
  refine ⟨?_, by decide, by decide, ?_⟩
  · intro s hlen hdig hrep
    have hclean : cleanDoc s = s.data := cleanDoc_of_all_digit s hdig
    have hne : ¬ s = "" := data_ne_nil_of_length s 11 (by omega) hlen
    simp only [validateCPF, hclean, hlen, hrep, if_neg hne]
    by_cases h1 : cpfCheckDigit1 s.data = digitVal (s.data.getD 9 '0') <;>
      by_cases h2 : cpfCheckDigit2 s.data = digitVal (s.data.getD 10 '0') <;>
      simp [h1, h2] <;> omega
  · intro s hlen
    by_cases hs : s = ""
    · subst hs; rfl
    · simp only [validateCPF, if_neg hs, if_pos hlen]

/-- Witness for C1 at the concrete valid document. -/
theorem validateCPF_check_digit_spec_witness : validateCPF "11144477735" = true :=
  (validateCPF_check_digit_spec.1 "11144477735" (by decide) (by decide) (by decide)).mpr
    (by decide)

/-- C2: for every 14-digit input whose digits are not all identical,
ValidationService.validateCNPJ accepts exactly when digit 12 equals the
check digit from digits 0..11 under the weight cycle
[5,4,3,2,9,8,7,6,5,4,3,2] (remainder = sum mod 11, digit 0 when the
remainder is under 2, else 11 - remainder) and digit 13 equals the
analogous digit from digits 0..12 under [6,5,4,3,2,9,8,7,6,5,4,3,2];
moreover the concrete pattern validates, every mutation of its last digit
is rejected, and any input whose cleaned form is not 14 digits long is
rejected. -/
theorem validateCNPJ_check_digit_spec :
    (∀ s : String, s.data.length = 14 → (∀ c ∈ s.data, c.isDigit = true) →
      repeatedDigit 13 s.data = false →
      (validateCNPJ s = true ↔
        digitVal (s.data.getD 12 '0') = cnpjCheckDigit1 s.data ∧
        digitVal (s.data.getD 13 '0') = cnpjCheckDigit2 s.data)) ∧
    validateCNPJ "11222333000181" = true ∧
    (∀ d : Nat, d < 10 → d ≠ 1 →
      validateCNPJ ⟨"1122233300018".data ++ [Nat.digitChar d]⟩ = false) ∧
    (∀ s : String, (cleanDoc s).length ≠ 14 → validateCNPJ s = false) := by
  refine ⟨?_, by decide, ?_, ?_⟩
  · intro s hlen hdig hrep
    have hclean : cleanDoc s = s.data := cleanDoc_of_all_digit s hdig
    have hne : ¬ s = "" := data_ne_nil_of_length s 14 (by omega) hlen
    simp only [validateCNPJ, hclean, hlen, hrep, if_neg hne]
    by_cases h1 : cnpjCheckDigit1 s.data = digitVal (s.data.getD 12 '0') <;>
      by_cases h2 : cnpjCheckDigit2 s.data = digitVal (s.data.getD 13 '0') <;>
      simp [h1, h2] <;> omega
  · intro d hd hd1
    interval_cases d <;> simp at hd1 ⊢ <;> decide
  · intro s hlen
    by_cases hs : s = ""
    · subst hs; rfl
    · simp only [validateCNPJ, if_neg hs, if_pos hlen]

/-- Witness for C2 at the concrete valid document. -/
theorem validateCNPJ_check_digit_spec_witness : validateCNPJ "11222333000181" = true :=
  (validateCNPJ_check_digit_spec.1 "11222333000181" (by decide) (by decide) (by decide)).mpr
    (by decide)

theorem nat_beq_eq_decide (a b : Nat) : (a == b) = decide (a = b) := by
  by_cases h : a = b <;> simp [h]

theorem validateCPF_eq_validators_cpf_aux (s : String) : validateCPF s = validators_cpf s := by
  by_cases hs : s = ""
  · subst hs; rfl
  · simp only [validateCPF, validators_cpf, if_neg hs]
    by_cases hl : (cleanDoc s).length ≠ 11
    · simp [hl]
    · simp only [if_neg hl]
      by_cases hr : repeatedDigit 10 (cleanDoc s) = true
      · simp [hr]
      · simp only [Bool.not_eq_true] at hr
        simp only [hr, Bool.false_eq_true, if_false]
        by_cases h1 : cpfCheckDigit1 (cleanDoc s) = digitVal ((cleanDoc s).getD 9 '0')
        · simp only [h1, ne_eq, not_true_eq_false, if_false]
          by_cases h2 : cpfCheckDigit2 (cleanDoc s) = digitVal ((cleanDoc s).getD 10 '0') <;>
            simp [h2, nat_beq_eq_decide]
        · simp [h1, nat_beq_eq_decide]

/-- C7 amended: the two near-duplicate CPF validator modules both compute
both remainders with the (sum * 10) mod 11 formula, and the two validators
are the same function: on every input string they return equal results. -/
theorem cpf_validator_modules_agree (s : String) : validateCPF s = validators_cpf s :=
  validateCPF_eq_validators_cpf_aux s

/-- C7 counterexample to the claim as stated: its negation, the two CPF
validators are equal as functions, so no input distinguishes them. -/
theorem cpf_validator_modules_no_divergence : validateCPF = validators_cpf :=
  funext validateCPF_eq_validators_cpf_aux

/-- Witness for C7 at one concrete input. -/
theorem cpf_validator_modules_agree_witness :
    validateCPF "111.444.777-35" = validators_cpf "111.444.777-35" :=
  cpf_validator_modules_agree "111.444.777-35"

theorem cleanDoc_all_digit (s : String) : ∀ c ∈ cleanDoc s, c.isDigit = true := by
  intro c hc
  exact (List.mem_filter.mp hc).2

theorem string_mk_cleanDoc (s : String) : (⟨cleanDoc s⟩ : String) = onlyDigits s := rfl

/-- C8 amended: with more digits than the expected count the formatter
returns the input unchanged; with fewer digits it returns the input
stripped to its digits (the cleaned string, not the original input); with
exactly the expected count it renders the personal mask DDD.DDD.DDD-DD
and the business mask DD.DDD.DDD/DDDD-DD over the cleaned digits. -/
theorem formatters_mask_spec :
    (∀ s : String, 11 < (cleanDoc s).length → formatters_cpf s = s) ∧
    (∀ s : String, (cleanDoc s).length < 11 → formatters_cpf s = onlyDigits s) ∧
    (∀ s : String, (cleanDoc s).length = 11 →
      formatters_cpf s = ⟨(cleanDoc s).take 3 ++ '.' :: ((cleanDoc s).drop 3).take 3 ++
        '.' :: ((cleanDoc s).drop 6).take 3 ++ '-' :: ((cleanDoc s).drop 9).take 2⟩) ∧
    (∀ s : String, 14 < (cleanDoc s).length → formatters_cnpj s = s) ∧
    (∀ s : String, (cleanDoc s).length < 14 → formatters_cnpj s = onlyDigits s) ∧
    (∀ s : String, (cleanDoc s).length = 14 →
      formatters_cnpj s = ⟨(cleanDoc s).take 2 ++ '.' :: ((cleanDoc s).drop 2).take 3 ++
        '.' :: ((cleanDoc s).drop 5).take 3 ++ '/' :: ((cleanDoc s).drop 8).take 4 ++
        '-' :: ((cleanDoc s).drop 12).take 2⟩) := by
  refine ⟨?_, ?_, ?_, ?_, ?_, ?_⟩
  · intro s h
    have hs : ¬ s = "" := by
      intro hs; subst hs; revert h; decide
    simp only [formatters_cpf, if_neg hs]
    rw [if_neg]
    omega
  · intro s h
    by_cases hs : s = ""
    · subst hs; rfl
    · simp only [formatters_cpf, if_neg hs]
      rw [if_pos (by omega), cpfMaskReplace, if_neg (fun hc => absurd hc.1 (by omega))]
      rfl
  · intro s h
    have hs : ¬ s = "" := by
      intro hs; subst hs; revert h; decide
    simp only [formatters_cpf, if_neg hs]
    rw [if_pos (by omega), cpfMaskReplace,
      if_pos ⟨by omega, List.all_eq_true.mpr (fun c hc => cleanDoc_all_digit s c (List.mem_of_mem_take hc))⟩]
  · intro s h
    have hs : ¬ s = "" := by
      intro hs; subst hs; revert h; decide
    simp only [formatters_cnpj, if_neg hs]
    rw [if_neg]
    omega
  · intro s h
    by_cases hs : s = ""
    · subst hs; rfl
    · simp only [formatters_cnpj, if_neg hs]
      rw [if_pos (by omega), cnpjMaskReplace, if_neg (fun hc => absurd hc.1 (by omega))]
      rfl
  · intro s h
    have hs : ¬ s = "" := by
      intro hs; subst hs; revert h; decide
    simp only [formatters_cnpj, if_neg hs]
    rw [if_pos (by omega), cnpjMaskReplace,
      if_pos ⟨by omega, List.all_eq_true.mpr (fun c hc => cleanDoc_all_digit s c (List.mem_of_mem_take hc))⟩]

/-- Witness for C8 at a fully formatted and an exact-length input. -/
theorem formatters_mask_spec_witness :
    formatters_cpf "11144477735" = "111.444.777-35" ∧
    formatters_cnpj "11222333000181" = "11.222.333/0001-81" :=
  ⟨(formatters_mask_spec.2.2.1 "11144477735" (by decide)).trans (by decide),
   (formatters_mask_spec.2.2.2.2.2 "11222333000181" (by decide)).trans (by decide)⟩

/-- C8 counterexample to the claim as stated: an input with fewer digits
than expected is not returned unchanged, the cleaned digits are. -/
theorem formatters_cpf_short_not_no_op :
    (cleanDoc "123-45").length ≠ 11 ∧ formatters_cpf "123-45" ≠ "123-45" ∧
    formatters_cpf "123-45" = "12345" := by decide

theorem digitChar_isDigit_of_lt {n : Nat} (h : n < 10) : (Nat.digitChar n).isDigit = true := by
  interval_cases n <;> decide

theorem decDigitsAux_succ_lt {f n : Nat} (h : n < 10) :
    decDigitsAux (f + 1) n = [Nat.digitChar n] := by
  simp [decDigitsAux, h]

theorem decRepr_single {n : Nat} (h : n < 10) : decRepr n = [Nat.digitChar n] :=
  decDigitsAux_succ_lt h

theorem decDigitsAux_all_digit : ∀ f n, ∀ c ∈ decDigitsAux f n, c.isDigit = true := by
  intro f
  induction f with
  | zero => intro n c hc; simp [decDigitsAux] at hc
  | succ f ih =>
    intro n c hc
    by_cases hn : n < 10
    · rw [decDigitsAux_succ_lt hn] at hc
      simp at hc
      subst hc
      exact digitChar_isDigit_of_lt hn
    · simp only [decDigitsAux, if_neg hn, List.mem_append, List.mem_singleton] at hc
      rcases hc with hc | hc
      · exact ih (n / 10) c hc
      · subst hc
        exact digitChar_isDigit_of_lt (Nat.mod_lt n (by norm_num))

theorem decRepr_all_digit (n : Nat) : ∀ c ∈ decRepr n, c.isDigit = true :=
  decDigitsAux_all_digit 17 n

theorem decDigitsAux_length_ge :
    ∀ k f n, k < f → 10 ^ k ≤ n → k + 1 ≤ (decDigitsAux f n).length := by
  intro k
  induction k with
  | zero =>
    intro f n hf hn
    match f, hf with
    | f + 1, _ =>
      by_cases hn10 : n < 10
      · rw [decDigitsAux_succ_lt hn10]
        simp
      · simp [decDigitsAux, hn10]
  | succ k ih =>
    intro f n hf hn
    match f, hf with
    | f + 1, hf =>
      have h10 : (10 : Nat) ≤ 10 ^ (k + 1) := by
        calc (10 : Nat) = 10 ^ 1 := (pow_one 10).symm
        _ ≤ 10 ^ (k + 1) := Nat.pow_le_pow_right (by norm_num) (by omega)
      have hn10 : ¬ n < 10 := by omega
      have hdiv : 10 ^ k ≤ n / 10 := by
        rw [Nat.le_div_iff_mul_le (by norm_num)]
        calc 10 ^ k * 10 = 10 ^ (k + 1) := (pow_succ 10 k).symm
        _ ≤ n := hn
      have hih := ih f (n / 10) (by omega) hdiv
      simp only [decDigitsAux, if_neg hn10, List.length_append, List.length_singleton]
      omega

theorem decDigitsAux_length_le :
    ∀ f n k, 1 ≤ k → n < 10 ^ k → (decDigitsAux f n).length ≤ k := by
  intro f
  induction f with
  | zero => intro n k h1 _; simp [decDigitsAux]
  | succ f ih =>
    intro n k h1 h2
    by_cases hn : n < 10
    · rw [decDigitsAux_succ_lt hn]
      simpa using h1
    · have hk2 : 2 ≤ k := by
        by_contra hc
        have hk1 : k = 1 := by omega
        subst hk1
        rw [pow_one] at h2
        omega
      have h10 : 10 ^ (k - 1) * 10 = 10 ^ k := by
        rw [← pow_succ]
        congr 1
        omega
      have hdiv : n / 10 < 10 ^ (k - 1) := by
        apply Nat.div_lt_of_lt_mul
        omega
      have hih := ih (n / 10) (k - 1) (by omega) hdiv
      simp only [decDigitsAux, if_neg hn, List.length_append, List.length_singleton]
      omega

theorem decRepr_length_ge6 (n : Nat) (h : 99999 < n) : 6 ≤ (decRepr n).length := by
  have := decDigitsAux_length_ge 5 17 n (by omega) (by norm_num; omega)
  simpa [decRepr] using this

theorem decRepr_length_le3 (n : Nat) (h : n < 1000) : (decRepr n).length ≤ 3 := by
  have := decDigitsAux_length_le 17 n 3 (by omega) (by norm_num; omega)
  simpa [decRepr] using this

theorem sliceLast6_length (l : List Char) (h : 6 ≤ l.length) : (sliceLast6 l).length = 6 := by
  simp only [sliceLast6, List.length_drop]
  omega

theorem sliceLast6_mem (l : List Char) : ∀ c ∈ sliceLast6 l, c ∈ l := by
  intro c hc
  exact List.mem_of_mem_drop hc

theorem padStart3_length (l : List Char) (h : l.length ≤ 3) : (padStart3 l).length = 3 := by
  simp only [padStart3, List.length_append, List.length_replicate]
  omega

theorem padStart3_all_digit (l : List Char) (h : ∀ c ∈ l, c.isDigit = true) :
    ∀ c ∈ padStart3 l, c.isDigit = true := by
  intro c hc
  simp only [padStart3, List.mem_append, List.mem_replicate] at hc
  rcases hc with hc | hc
  · rw [hc.2]; decide
  · exact h c hc

theorem accountCode_length (accountType : AccountType) : (accountCode accountType).length = 2 := by
  cases accountType <;> rfl

theorem accountCode_all_digit (accountType : AccountType) :
    ∀ c ∈ accountCode accountType, c.isDigit = true := by
  cases accountType <;> decide

theorem checkDigitOf_single (sum : Nat) : ∃ d : Char,
    (if sum % 11 < 2 then ['0'] else decRepr (11 - sum % 11)) = [d] ∧ d.isDigit = true := by
  by_cases h : sum % 11 < 2
  · exact ⟨'0', by rw [if_pos h], by decide⟩
  · have hlt : sum % 11 < 11 := Nat.mod_lt sum (by norm_num)
    refine ⟨Nat.digitChar (11 - sum % 11), ?_, digitChar_isDigit_of_lt (by omega)⟩
    rw [if_neg h, decRepr_single (by omega)]

theorem calculateCheckDigit_single (baseNumber : List Char) :
    ∃ d : Char, calculateCheckDigit baseNumber = [d] ∧ d.isDigit = true := by
  simp only [calculateCheckDigit]
  exact checkDigitOf_single _

/-- C3: for every account category and every value the impure sources can
take (a millisecond epoch, necessarily above 99999, and a random draw of
floor of Math.random times 1000, necessarily below 1000), the generated
account number is eleven digits, a dash and one digit, and recomputing
the weighted-cycle checksum of AccountService.calculateCheckDigit over
the eleven digits reproduces the trailing digit. -/
theorem generateAccountNumber_checksum (accountType : AccountType) (now rnd : Nat)
    (hnow : 99999 < now) (hrnd : rnd < 1000) :
    ∃ base d, (generateAccountNumber now rnd accountType).data = base ++ ['-', d] ∧
      base.length = 11 ∧ (∀ c ∈ base, c.isDigit = true) ∧ d.isDigit = true ∧
      calculateCheckDigit base = [d] := by
  obtain ⟨d, hd, hdig⟩ := calculateCheckDigit_single
    (accountCode accountType ++ sliceLast6 (decRepr now) ++ padStart3 (decRepr rnd))
  refine ⟨accountCode accountType ++ sliceLast6 (decRepr now) ++ padStart3 (decRepr rnd),
    d, ?_, ?_, ?_, hdig, hd⟩
  · show accountCode accountType ++ sliceLast6 (decRepr now) ++ padStart3 (decRepr rnd) ++
      '-' :: calculateCheckDigit (accountCode accountType ++ sliceLast6 (decRepr now) ++
        padStart3 (decRepr rnd)) = _
    rw [hd]
  · rw [List.length_append, List.length_append, accountCode_length,
      sliceLast6_length (decRepr now) (decRepr_length_ge6 now hnow),
      padStart3_length (decRepr rnd) (decRepr_length_le3 rnd hrnd)]
  · intro c hc
    simp only [List.mem_append] at hc
    rcases hc with (hc | hc) | hc
    · exact accountCode_all_digit accountType c hc
    · exact decRepr_all_digit now c (sliceLast6_mem (decRepr now) c hc)
    · exact padStart3_all_digit (decRepr rnd) (decRepr_all_digit rnd) c hc

/-- Witness for C3 at a concrete time, draw and category. -/
theorem generateAccountNumber_checksum_witness :
    ∃ base d, (generateAccountNumber 1700000123456 42 AccountType.SAVINGS).data = base ++ ['-', d] ∧
      base.length = 11 ∧ (∀ c ∈ base, c.isDigit = true) ∧ d.isDigit = true ∧
      calculateCheckDigit base = [d] :=
  generateAccountNumber_checksum AccountType.SAVINGS 1700000123456 42 (by decide) (by decide)

theorem find?_map_replace {α : Type} (key : String) (data : α) (t : Nat) :
    ∀ cache : Cache α, cache.any (fun e => e.1 == key) = true →
    (cache.map (fun e => if e.1 == key then (key, data, t) else e)).find?
      (fun e => e.1 == key) = some (key, data, t) := by
  intro cache
  induction cache with
  | nil => intro h; simp at h
  | cons e rest ih =>
    intro h
    by_cases he : (e.1 == key) = true
    · simp only [List.map_cons, if_pos he]
      exact List.find?_cons_of_pos _ (by simp)
    · have hrest : rest.any (fun x => x.1 == key) = true := by
        simp only [List.any_cons, he, Bool.false_or] at h
        exact h
      simp only [List.map_cons, if_neg he]
      rw [List.find?_cons_of_neg _ (by simp [he])]
      exact ih hrest

theorem find?_append_key {α : Type} (key : String) (data : α) (t : Nat) :
    ∀ cache : Cache α, cache.any (fun e => e.1 == key) = false →
    (cache ++ [(key, data, t)]).find? (fun e => e.1 == key) = some (key, data, t) := by
  intro cache
  induction cache with
  | nil =>
    intro _
    simp only [List.nil_append]
    exact List.find?_cons_of_pos _ (by simp)
  | cons e rest ih =>
    intro h
    simp only [List.any_cons, Bool.or_eq_false_iff] at h
    simp only [List.cons_append]
    rw [List.find?_cons_of_neg _ (by simp [h.1])]
    exact ih h.2

theorem getCacheEntry_setCache {α : Type} (cache : Cache α) (key : String) (data : α) (t : Nat) :
    getCacheEntry (setCache cache key data t) key = some (data, t) := by
  unfold setCache
  by_cases h : cache.any (fun e => e.1 == key) = true
  · rw [if_pos h]
    unfold getCacheEntry
    rw [find?_map_replace key data t cache h]
    rfl
  · rw [if_neg h]
    have hf : cache.any (fun e => e.1 == key) = false := by
      cases hc : cache.any (fun e => e.1 == key)
      · rfl
      · exact absurd hc h
    unfold getCacheEntry
    rw [find?_append_key key data t cache hf]
    rfl

/-- C4: a cache read of a key at time now, after the key was set at time
storedAt, yields the stored payload exactly while now minus storedAt is
under the 30000 millisecond window and reads as absent otherwise; in
particular a payload set at time 0 is served at 29999 and absent at
30001. -/
theorem quoteCache_window_spec :
    (∀ (α : Type) (cache : Cache α) (key : String) (data : α) (storedAt now : Nat),
      cacheRead (setCache cache key data storedAt) key now =
        if now - storedAt < 30000 then some data else none) ∧
    cacheRead (setCache ([] : Cache Nat) "AAPL" 150 0) "AAPL" 29999 = some 150 ∧
    cacheRead (setCache ([] : Cache Nat) "AAPL" 150 0) "AAPL" 30001 = none := by
  refine ⟨?_, by decide, by decide⟩
  intro α cache key data storedAt now
  have hent := getCacheEntry_setCache cache key data storedAt
  have hval : isCacheValid (setCache cache key data storedAt) key now =
      decide (now - storedAt < CACHE_DURATION) := by
    unfold isCacheValid
    rw [hent]
  have hget : getCache (setCache cache key data storedAt) key = some data := by
    unfold getCache
    rw [hent]
    rfl
  unfold cacheRead
  rw [hval, hget]
  by_cases h : now - storedAt < 30000
  · rw [if_pos (by simp [CACHE_DURATION, h]), if_pos h]
  · rw [if_neg (by simp [CACHE_DURATION, h]), if_neg h]

/-- Witness for C4 at the concrete scenario inputs. -/
theorem quoteCache_window_spec_witness :
    cacheRead (setCache ([] : Cache Nat) "AAPL" 150 0) "AAPL" 29999 = some 150 :=
  quoteCache_window_spec.2.1

/-- C6: on a cache miss, getStockQuote stores a payload with setCache
before returning only when the fetcher outcome is a success with usable
data; whenever the fetcher fails, the returned response carries the
mapped failure message with success false, and the cache is returned
completely unchanged. -/
theorem getStockQuote_miss_discipline (cache : Cache StockQuote) (now : Nat) (symbol : String)
    (fetch : FetchResult)
    (hmiss : isCacheValid cache ("quote_" ++ jsToUpper symbol) now = false) :
    (∀ failure, fetch = FetchResult.err failure →
      getStockQuote cache now symbol fetch =
        ({ success := false, data := none,
           error := some (stockErrorMessage (jsToUpper symbol) failure) }, cache)) ∧
    ((getStockQuote cache now symbol fetch).2 = cache ∨
      ∃ q, (getStockQuote cache now symbol fetch).1 =
          { success := true, data := some q, error := none } ∧
        (getStockQuote cache now symbol fetch).2 =
          setCache cache ("quote_" ++ jsToUpper symbol) q now) := by
  constructor
  · intro failure hf
    subst hf
    simp [getStockQuote, hmiss]
  · match fetch with
    | .err failure => exact Or.inl (by simp [getStockQuote, hmiss])
    | .ok [] => exact Or.inl (by simp [getStockQuote, hmiss])
    | .ok (quote :: rest) =>
      match hq : quote.price with
      | none => exact Or.inl (by simp [getStockQuote, hmiss, hq])
      | some p =>
        refine Or.inr ⟨{ symbol := quote.symbol.getD (jsToUpper symbol),
                         name := quote.name.getD (jsToUpper symbol),
                         price := toFixed2 p,
                         change := toFixed2 (quote.change.getD 0),
                         changePercent := toFixed2 (quote.changesPercentage.getD 0),
                         currency := if (".SA".data) <:+: (jsToUpper symbol).data then "BRL" else "USD",
                         marketTime := now }, ?_, ?_⟩
        · simp [getStockQuote, hmiss, hq]
        · simp [getStockQuote, hmiss, hq]

/-- Witness for C6: a network failure on an empty cache propagates and
leaves the cache empty. -/
theorem getStockQuote_miss_discipline_witness :
    getStockQuote [] 0 "AAPL" (FetchResult.err FetchFailure.network) =
      ({ success := false, data := none,
         error := some "Erro de conexão com a API. Verifique sua internet." }, []) :=
  (getStockQuote_miss_discipline [] 0 "AAPL" (FetchResult.err FetchFailure.network)
    (by decide)).1 FetchFailure.network rfl

/-- C5 amended: when two creation commands clean to the same customer
document, the first createAccount succeeds and the second passes field
validation, the second call is rejected with the duplicate-CPF error and
leaves the stored collection exactly as the first call left it. -/
theorem createAccount_rejects_duplicate_cpf (env1 env2 : Env) (stored : List BankAccount)
    (cmd1 cmd2 : CreateAccountCommand)
    (hsame : sanitizeDocument cmd1.customerCpf = sanitizeDocument cmd2.customerCpf)
    (h1 : (createAccount env1 stored cmd1).1.success = true)
    (h2 : validateAccountCreation cmd2 = none) :
    (createAccount env2 (createAccount env1 stored cmd1).2 cmd2).1.success = false ∧
    (createAccount env2 (createAccount env1 stored cmd1).2 cmd2).1.error =
      some "CPF já cadastrado no sistema. Cada CPF pode ter apenas uma conta." ∧
    (createAccount env2 (createAccount env1 stored cmd1).2 cmd2).2 =
      (createAccount env1 stored cmd1).2 := by
  rcases hv1 : validateAccountCreation cmd1 with _ | errs
  · rcases hb1 : validateBusinessRules stored cmd1 with _ | msg
    · have hany : ((createAccount env1 stored cmd1).2).any
          (fun acc => acc.customerCpf == sanitizeDocument cmd2.customerCpf) = true := by
        simp [createAccount, hv1, hb1, List.any_append, hsame]
      have hbr2 : validateBusinessRules (createAccount env1 stored cmd1).2 cmd2 =
          some "CPF já cadastrado no sistema. Cada CPF pode ter apenas uma conta." := by
        unfold validateBusinessRules
        rw [if_pos hany]
      generalize hX : (createAccount env1 stored cmd1).2 = X at hbr2 ⊢
      refine ⟨?_, ?_, ?_⟩ <;> simp [createAccount, h2, hbr2]
    · simp [createAccount, hv1, hb1] at h1
  · simp [createAccount, hv1] at h1

/-- C5 counterexample to the claim as stated: with the same cleaned
document, a first successful creation and a second command that fails
field validation, the second call is rejected, but with field errors and
no duplicate-CPF error message. -/
theorem createAccount_duplicate_cpf_counterexample :
    sanitizeDocument sampleCommand.customerCpf =
      sanitizeDocument sampleCommandNoName.customerCpf ∧
    (createAccount sampleEnv1 [] sampleCommand).1.success = true ∧
    (createAccount sampleEnv2 (createAccount sampleEnv1 [] sampleCommand).2
      sampleCommandNoName).1.success = false ∧
    (createAccount sampleEnv2 (createAccount sampleEnv1 [] sampleCommand).2
      sampleCommandNoName).1.error = none ∧
    (createAccount sampleEnv2 (createAccount sampleEnv1 [] sampleCommand).2
      sampleCommandNoName).1.validationErrors ≠ [] := by decide

/-- Witness for C5 at the two formattings of the same document. -/
theorem createAccount_rejects_duplicate_cpf_witness :
    (createAccount sampleEnv2 (createAccount sampleEnv1 [] sampleCommand).2
      sampleCommandUnformatted).1.success = false ∧
    (createAccount sampleEnv2 (createAccount sampleEnv1 [] sampleCommand).2
      sampleCommandUnformatted).1.error =
      some "CPF já cadastrado no sistema. Cada CPF pode ter apenas uma conta." ∧
    (createAccount sampleEnv2 (createAccount sampleEnv1 [] sampleCommand).2
      sampleCommandUnformatted).2 = (createAccount sampleEnv1 [] sampleCommand).2 :=
  createAccount_rejects_duplicate_cpf sampleEnv1 sampleEnv2 [] sampleCommand
    sampleCommandUnformatted (by decide) (by decide) (by decide)

/-- A stored account whose customer document equals the cleaned document
of the sample business command. -/
def sampleStoredAccount : BankAccount where
  id := "uuid-0"
  customerName := "Joao Silva"
  customerCpf := "11144477735"
  customerEmail := "joao@email.com"
  customerPhone := "11999999999"
  accountNumber := "10123456007-3"
  accountType := .SAVINGS
  balance := 500
  status := "ACTIVE"
  createdAt := 1700000000000
  businessName := none
  businessCnpj := none

/-- C10 amended: for a command that passes field validation, when the
account type is BUSINESS, the balance is below 100 and no stored account
duplicates the cleaned customer document or business document, the
creation is rejected with the minimum-balance error and nothing is
persisted; the savings and checking minimums are 0. -/
theorem createAccount_minimum_balance (env : Env) (stored : List BankAccount)
    (cmd : CreateAccountCommand)
    (hval : validateAccountCreation cmd = none)
    (hty : cmd.accountType = AccountType.BUSINESS)
    (hbal : cmd.balance < 100)
    (hcpf : ∀ acc ∈ stored, acc.customerCpf ≠ sanitizeDocument cmd.customerCpf)
    (hcnpj : ∀ acc ∈ stored, acc.businessCnpj ≠ some (sanitizeDocument cmd.businessCnpj)) :
    ((createAccount env stored cmd).1.success = false ∧
     (createAccount env stored cmd).1.error =
       some "Saldo mínimo para conta empresarial é R$ 100.00" ∧
     (createAccount env stored cmd).2 = stored) ∧
    getMinimumBalance AccountType.SAVINGS = 0 ∧ getMinimumBalance AccountType.CHECKING = 0 := by
  have hanyCpf : stored.any (fun acc => acc.customerCpf == sanitizeDocument cmd.customerCpf) = false := by
    cases hc : stored.any (fun acc => acc.customerCpf == sanitizeDocument cmd.customerCpf)
    · rfl
    · obtain ⟨acc, hmem, hp⟩ := List.any_eq_true.mp hc
      exact absurd (by simpa using hp) (hcpf acc hmem)
  have hanyCnpj : stored.any (fun acc => acc.businessCnpj == some (sanitizeDocument cmd.businessCnpj)) = false := by
    cases hc : stored.any (fun acc => acc.businessCnpj == some (sanitizeDocument cmd.businessCnpj))
    · rfl
    · obtain ⟨acc, hmem, hp⟩ := List.any_eq_true.mp hc
      exact absurd (by simpa using hp) (hcnpj acc hmem)
  have hbr : validateBusinessRules stored cmd =
      some "Saldo mínimo para conta empresarial é R$ 100.00" := by
    unfold validateBusinessRules
    rw [if_neg (by rw [hanyCpf]; exact Bool.false_ne_true)]
    rw [if_neg (by rw [hanyCnpj]; simp)]
    rw [if_pos (by rw [hty]; exact hbal), hty]
    rfl
  refine ⟨⟨?_, ?_, ?_⟩, rfl, rfl⟩ <;> simp [createAccount, hval, hbr]

/-- C10 counterexample to the claim as stated: the same field-valid
business command with balance below 100, run against a collection that
already holds its customer document, is rejected with the duplicate
error, not the minimum-balance error. -/
theorem createAccount_minimum_balance_counterexample :
    validateAccountCreation sampleBusinessCommand = none ∧
    sampleBusinessCommand.accountType = AccountType.BUSINESS ∧
    sampleBusinessCommand.balance < 100 ∧
    (createAccount sampleEnv2 [sampleStoredAccount] sampleBusinessCommand).1.success = false ∧
    (createAccount sampleEnv2 [sampleStoredAccount] sampleBusinessCommand).1.error ≠
      some "Saldo mínimo para conta empresarial é R$ 100.00" ∧
    (createAccount sampleEnv2 [sampleStoredAccount] sampleBusinessCommand).1.error =
      some "CPF já cadastrado no sistema. Cada CPF pode ter apenas uma conta." := by decide

/-- Witness for C10 on the empty collection. -/
theorem createAccount_minimum_balance_witness :
    ((createAccount sampleEnv1 [] sampleBusinessCommand).1.success = false ∧
     (createAccount sampleEnv1 [] sampleBusinessCommand).1.error =
       some "Saldo mínimo para conta empresarial é R$ 100.00" ∧
     (createAccount sampleEnv1 [] sampleBusinessCommand).2 = []) ∧
    getMinimumBalance AccountType.SAVINGS = 0 ∧ getMinimumBalance AccountType.CHECKING = 0 :=
  createAccount_minimum_balance sampleEnv1 [] sampleBusinessCommand (by decide) (by decide)
    (by decide) (by simp) (by simp)

/-- C9: reads of the persisted collections degrade to the empty
collection when the stored value is absent or fails to deserialize, and
return the decoded collection otherwise; writes raise the fixed error
when serialization or the underlying store fails, and succeed silently
only when the store accepted the data. -/
theorem storage_error_asymmetry :
    (∀ parse : String → Option (List BankAccount), getAccountsFromStorage none parse = []) ∧
    (∀ parse data, parse data = none → getAccountsFromStorage (some data) parse = []) ∧
    (∀ parse data accounts, parse data = some accounts →
      getAccountsFromStorage (some data) parse = accounts) ∧
    (∀ stringify setItem accounts msg data, stringify accounts = Except.ok data →
      setItem data = Except.error msg →
      saveAccountsToStorage stringify setItem accounts =
        Except.error "Falha ao salvar dados das contas") ∧
    (∀ stringify setItem accounts msg, stringify accounts = Except.error msg →
      saveAccountsToStorage stringify setItem accounts =
        Except.error "Falha ao salvar dados das contas") ∧
    (∀ stringify setItem accounts data, stringify accounts = Except.ok data →
      setItem data = Except.ok () →
      saveAccountsToStorage stringify setItem accounts = Except.ok ()) ∧
    (∀ parse : String → Option (List Investment), getInvestmentsFromStorage none parse = []) ∧
    (∀ parse data, parse data = none → getInvestmentsFromStorage (some data) parse = []) ∧
    (∀ parse data investments, parse data = some investments →
      getInvestmentsFromStorage (some data) parse = investments) ∧
    (∀ stringify setItem investments msg data, stringify investments = Except.ok data →
      setItem data = Except.error msg →
      saveInvestmentsToStorage stringify setItem investments =
        Except.error "Falha ao salvar dados dos investimentos") ∧
    (∀ stringify setItem investments msg, stringify investments = Except.error msg →
      saveInvestmentsToStorage stringify setItem investments =
        Except.error "Falha ao salvar dados dos investimentos") := by
  refine ⟨fun parse => rfl, ?_, ?_, ?_, ?_, ?_, fun parse => rfl, ?_, ?_, ?_, ?_⟩
  · intro parse data h
    simp [getAccountsFromStorage, h]
  · intro parse data accounts h
    simp [getAccountsFromStorage, h]
  · intro stringify setItem accounts msg data h1 h2
    simp [saveAccountsToStorage, h1, h2]
  · intro stringify setItem accounts msg h
    simp [saveAccountsToStorage, h]
  · intro stringify setItem accounts data h1 h2
    simp [saveAccountsToStorage, h1, h2]
  · intro parse data h
    simp [getInvestmentsFromStorage, h]
  · intro parse data investments h
    simp [getInvestmentsFromStorage, h]
  · intro stringify setItem investments msg data h1 h2
    simp [saveInvestmentsToStorage, h1, h2]
  · intro stringify setItem investments msg h
    simp [saveInvestmentsToStorage, h]

/-- Witness for C9: a corrupt read degrades to the empty collection and a
rejected write raises the accounts write error. -/
theorem storage_error_asymmetry_witness :
    getAccountsFromStorage (some "not-json") (fun _ => none) = [] ∧
    saveAccountsToStorage (fun _ => Except.ok "[]")
      (fun _ => Except.error "QuotaExceededError") [] =
      Except.error "Falha ao salvar dados das contas" :=
  ⟨storage_error_asymmetry.2.1 (fun _ => none) "not-json" rfl,
   storage_error_asymmetry.2.2.2.1 (fun _ => Except.ok "[]")
     (fun _ => Except.error "QuotaExceededError") [] "QuotaExceededError" "[]" rfl rfl⟩
